import Mathlib

/-!
Verification of the credit-ledger backend: shallow embedding of the
credit service (`credit.service.js`), the payment service
(`payment.service.js`), the payment controller and the bot-auth
middleware, together with a small-step interleaving model of the
conditional store write used by `deductCredit`.
-/

namespace CreditLedger

/-- A row of the `users` table: opaque id, unique phone number, credit balance. -/
structure User where
  id : Nat
  phone : String
  credits : Int
deriving DecidableEq, Repr

/-- A row of the `credit_transactions` table. -/
structure Txn where
  user_id : Nat
  action : String
  credits : Int
  source : String
  reference_id : Option String
deriving DecidableEq, Repr

/-- A row of the `payments` table (gateway bookkeeping). -/
structure PaymentRec where
  user_id : Nat
  amount : Rat
  gateway_order_id : String
  gateway_payment_id : String
  status : String
  package_id : Nat
deriving DecidableEq, Repr

/-- A row of the `packages` table. -/
structure Package where
  id : Nat
  name : String
  price : Rat
  credits : Int
deriving DecidableEq, Repr

/-- The ledger store: `users`, `credit_transactions` and `payments` tables,
plus a fresh-id counter standing for the store's id generator. -/
structure Store where
  users : List User
  txns : List Txn
  payments : List PaymentRec
  nextId : Nat
deriving DecidableEq, Repr

/-- Embedding of `getOrCreateUser` (credit.service.js, sequential run, insert succeeds):
look up by phone; if absent, insert a user with 3 credits and append the
starter transaction `action=credit, credits=3, source=system`. -/
def getOrCreateUser (phone : String) (s : Store) : User × Store :=
  match s.users.find? (fun u => u.phone == phone) with
  | some u => (u, s)
  | none =>
    let u : User := { id := s.nextId, phone := phone, credits := 3 }
    let s1 : Store := { s with users := s.users ++ [u], nextId := s.nextId + 1 }
    let s2 : Store := { s1 with
      txns := s1.txns ++ [{ user_id := u.id, action := "credit", credits := 3,
                            source := "system", reference_id := none }] }
    (u, s2)

/-- Variant of `getOrCreateUser` with the insert outcome made explicit: between the
failed lookup and the insert, a concurrent request may commit
(`interfere`); the insert then violates the unique constraint on
phone number exactly when the phone is now present, and the code path
for `createError` throws `Failed to create user`. -/
def getOrCreateUserRaced (phone : String) (s0 : Store) (interfere : Store → Store) :
    Except String (User × Store) :=
  match s0.users.find? (fun u => u.phone == phone) with
  | some u => Except.ok (u, s0)
  | none =>
    let s1 := interfere s0
    if s1.users.any (fun u => u.phone == phone) then
      Except.error "Failed to create user"
    else
      let u : User := { id := s1.nextId, phone := phone, credits := 3 }
      let s2 : Store := { s1 with users := s1.users ++ [u], nextId := s1.nextId + 1 }
      let s3 : Store := { s2 with
        txns := s2.txns ++ [{ user_id := u.id, action := "credit", credits := 3,
                              source := "system", reference_id := none }] }
      Except.ok (u, s3)

/-- Embedding of `addCredits` (credit.service.js): resolve the user, set its balance to
`credits + amount`, append a matching credit transaction. -/
def addCredits (phone : String) (amount : Int) (source : String)
    (refId : Option String) (s : Store) : User × Store :=
  let res := getOrCreateUser phone s
  let user := res.1
  let s1 := res.2
  let newCredits := user.credits + amount
  let s2 : Store := { s1 with
    users := s1.users.map (fun u => if u.id == user.id then { u with credits := newCredits } else u) }
  let updated : User := { user with credits := newCredits }
  let s3 : Store := { s2 with
    txns := s2.txns ++ [{ user_id := user.id, action := "credit", credits := amount,
                          source := source, reference_id := refId }] }
  (updated, s3)

/-! ### Interleaving model of `deductCredit`

`deductCredit` performs three store accesses separated by suspension
points: the read (via `getOrCreateUser`), the conditional update
`update credits = user.credits - 1 where id = .. and credits >= 1`, and,
when the update matched no row, a re-read. The model projects the store
to the single user's balance; the debit-transaction insert does not
touch the balance and is omitted. -/

/-- Local state of one in-flight `deductCredit` call. -/
inductive ProcState where
  | start
  | writeAttempt (r : Int)
  | reread
  | done (success : Bool) (remaining : Int)
deriving DecidableEq, Repr

/-- The store write of `deductCredit`: writes the value `r - 1`, computed
from the earlier read `r`, guarded by the current balance being ≥ 1
(`.gte credits 1`). Returns the new balance, or `none` when the guard
rejects the write. -/
def condWrite (bal r : Int) : Option Int :=
  if bal ≥ 1 then some (r - 1) else none

/-- Modelled from the spec: the atomic conditional decrement
`update balance = balance - 1 where balance >= 1`, evaluated against the
balance the store observes at the moment of write (§9 "Conditional
decrement"). Not part of the source; stated for comparison with
`condWrite`. -/
def specCondDecrement (bal : Int) : Option Int :=
  if bal ≥ 1 then some (bal - 1) else none

/-- One step of one `deductCredit` call against balance `bal`:
read-and-check, conditional write, or re-read. -/
def stepProc (bal : Int) : ProcState → Int × ProcState
  | ProcState.start =>
      if bal ≤ 0 then (bal, ProcState.done false bal)
      else (bal, ProcState.writeAttempt bal)
  | ProcState.writeAttempt r =>
      match condWrite bal r with
      | some b => (b, ProcState.done true b)
      | none => (bal, ProcState.reread)
  | ProcState.reread => (bal, ProcState.done false bal)
  | ProcState.done ok rem => (bal, ProcState.done ok rem)

/-- A configuration: the user's stored balance and the local states of the
in-flight calls. -/
def Config := Int × List ProcState
deriving instance DecidableEq, Repr for Config

/-- Scheduler step: process `i` (if any) takes its next step. -/
def stepC (c : Config) (i : Nat) : Config :=
  match c.2.get? i with
  | none => c
  | some p =>
    let bp := stepProc c.1 p
    (bp.1, c.2.set i bp.2)

/-- Run a schedule (a list of process indices) from a configuration. -/
def run (c : Config) : List Nat → Config
  | [] => c
  | i :: rest => run (stepC c i) rest

/-- All in-flight calls have returned. -/
def allDone (ps : List ProcState) : Bool :=
  ps.all (fun p => match p with | ProcState.done _ _ => true | _ => false)

/-! ### Payment service (`payment.service.js`)

HMAC-SHA256 is treated as an oracle `hmac : String → String → String`
(secret, message ↦ hex digest); `crypto.timingSafeEqual` on equal-length
buffers decides string equality. -/

/-- Embedding of `verifyPayment` (payment.service.js): recompute
`hmac(secret, orderId ++ "|" ++ paymentId)`; return `false` when the
secret is unconfigured, the signature is absent, the lengths differ, or
the strings differ. -/
def verifyPaymentSig (secret : Option String) (hmac : String → String → String)
    (orderId paymentId : String) (sig : Option String) : Bool :=
  match secret with
  | none => false
  | some sec =>
    let expected := hmac sec (orderId ++ "|" ++ paymentId)
    match sig with
    | none => false
    | some s =>
      if expected.length ≠ s.length then false
      else expected == s

/-- Embedding of `verifyWebhook` (payment.service.js): same shape over the raw body,
against the webhook secret. -/
def verifyWebhookSig (secret : Option String) (hmac : String → String → String)
    (rawBody : String) (sig : Option String) : Bool :=
  match secret with
  | none => false
  | some sec =>
    let expected := hmac sec rawBody
    match sig with
    | none => false
    | some s =>
      if expected.length ≠ s.length then false
      else expected == s

/-- JavaScript `Math.round`: round half towards positive infinity. -/
def jsRound (q : Rat) : Int := ⌊q + 1/2⌋

/-! ### Payment controller -/

/-- Outcome of the `verifyPayment` controller. -/
inductive VerifyResult where
  | missingFields
  | invalidSignature
  | userNotFound
  | packageNotFound
  | success (creditsAdded : Int) (remainingCredits : Int)
deriving DecidableEq, Repr

/-- Outcome of the `createOrder` controller. -/
inductive OrderResult where
  | missingFields
  | packageNotFound
  | ok (amount : Int) (currency : String) (pkg : Package)
deriving DecidableEq, Repr

/-- Embedding of the `createOrder` controller: look up the package, convert its price to
minor units with `Math.round(price * 100)`, and create the gateway order
(the gateway echoes `Math.round(amount) = amount` back). Does not touch
the ledger. -/
def createOrderCtrl (packages : List Package)
    (packageId : Option Nat) (phone : Option String) : OrderResult :=
  match packageId, phone with
  | some pid, some _ =>
    match packages.find? (fun p => p.id == pid) with
    | none => OrderResult.packageNotFound
    | some pkg => OrderResult.ok (jsRound (pkg.price * 100)) "INR" pkg
  | _, _ => OrderResult.missingFields

/-- Embedding of the `verifyPayment` controller: field presence check, signature check,
user lookup (no auto-create), package lookup, best-effort payment-record
insert (`paymentInsertFails` tolerated), then `addCredits`. -/
def verifyPaymentCtrl (secret : Option String) (hmac : String → String → String)
    (packages : List Package)
    (orderId paymentId sig phone : Option String) (packageId : Option Nat)
    (paymentInsertFails : Bool) (s : Store) : VerifyResult × Store :=
  match orderId, paymentId, sig, phone, packageId with
  | some oid, some pid, some sg, some ph, some pkgId =>
    if verifyPaymentSig secret hmac oid pid (some sg) = false then
      (VerifyResult.invalidSignature, s)
    else
      match s.users.find? (fun u => u.phone == ph) with
      | none => (VerifyResult.userNotFound, s)
      | some user =>
        match packages.find? (fun p => p.id == pkgId) with
        | none => (VerifyResult.packageNotFound, s)
        | some pkg =>
          let s1 :=
            if paymentInsertFails then s
            else { s with payments := s.payments ++
              [{ user_id := user.id, amount := pkg.price, gateway_order_id := oid,
                 gateway_payment_id := pid, status := "success", package_id := pkgId }] }
          let res := addCredits ph pkg.credits "payment" (some pid) s1
          (VerifyResult.success pkg.credits res.1.credits, res.2)
  | _, _, _, _, _ => (VerifyResult.missingFields, s)

/-! ### Webhook controller -/

/-- A parsed webhook event (`JSON.parse(rawBody)`), reduced to the fields
the handler reads. -/
structure WebhookEvent where
  eventType : String
  orderId : String
  paymentId : String
deriving DecidableEq, Repr

/-- Order metadata recovered from the gateway (`order.notes`). -/
structure OrderNotes where
  package_id : Nat
  phone_number : String
  credits : Int
deriving DecidableEq, Repr

/-- Body of the webhook handler after the signature has been accepted:
parse, filter on event type, fetch the order, credit. Every failure is
caught and still answered 200. -/
def webhookProcess (rawBody : String)
    (parse : String → Except Unit WebhookEvent)
    (fetchOrder : String → Except Unit (Option OrderNotes))
    (creditFails : Bool) (s : Store) : Nat × Store :=
  match parse rawBody with
  | Except.error _ => (200, s)
  | Except.ok ev =>
    if ev.eventType == "payment.captured" then
      match fetchOrder ev.orderId with
      | Except.error _ => (200, s)
      | Except.ok none => (200, s)
      | Except.ok (some notes) =>
        if creditFails then (200, s)
        else
          let res := addCredits notes.phone_number notes.credits
            "webhook_payment" (some ev.paymentId) s
          (200, res.2)
    else (200, s)

/-- Embedding of the `webhook` controller: missing signature → 400; invalid signature →
400; afterwards every failure (parse error, order fetch error or absent
order, crediting failure) is caught and answered 200. On the good path of
a `payment.captured` event, `addCredits` runs with
`source = webhook_payment`. Returns the HTTP status and the store. -/
def webhookCtrl (secret : Option String) (hmac : String → String → String)
    (rawBody : String) (sig : Option String)
    (parse : String → Except Unit WebhookEvent)
    (fetchOrder : String → Except Unit (Option OrderNotes))
    (creditFails : Bool) (s : Store) : Nat × Store :=
  match sig with
  | none => (400, s)
  | some sg =>
    if verifyWebhookSig secret hmac rawBody (some sg) = false then (400, s)
    else webhookProcess rawBody parse fetchOrder creditFails s

/-! ### Bot auth middleware (`botAuth.middleware.js`) -/

/-- Outcome of the bot-auth middleware. -/
inductive BotAuthResult where
  | next
  | unauthorized (msg : String)
deriving DecidableEq, Repr

/-- Embedding of `authenticateBot`: skip the check entirely when `BOT_SECRET` is not
configured; otherwise require the `x-bot-secret` header to match. -/
def authenticateBot (secret : Option String) (header : Option String) : BotAuthResult :=
  match secret with
  | none => BotAuthResult.next
  | some sec =>
    match header with
    | none => BotAuthResult.unauthorized "Missing x-bot-secret header"
    | some h =>
      if h ≠ sec then BotAuthResult.unauthorized "Invalid bot secret"
      else BotAuthResult.next

/-- Balance of the user with the given phone, if present. -/
def userCredits (s : Store) (phone : String) : Option Int :=
  (s.users.find? (fun u => u.phone == phone)).map (fun u => u.credits)

/-! ## Reachability for two concurrent `deductCredit` calls at balance 1 -/

/-- Every configuration reachable from balance 1 with two fresh calls. -/
def reachable2 : List Config :=
  [(1, [ProcState.start, ProcState.start]),
   (1, [ProcState.writeAttempt 1, ProcState.start]),
   (1, [ProcState.start, ProcState.writeAttempt 1]),
   (1, [ProcState.writeAttempt 1, ProcState.writeAttempt 1]),
   (0, [ProcState.done true 0, ProcState.start]),
   (0, [ProcState.start, ProcState.done true 0]),
   (0, [ProcState.done true 0, ProcState.writeAttempt 1]),
   (0, [ProcState.writeAttempt 1, ProcState.done true 0]),
   (0, [ProcState.done true 0, ProcState.reread]),
   (0, [ProcState.reread, ProcState.done true 0]),
   (0, [ProcState.done true 0, ProcState.done false 0]),
   (0, [ProcState.done false 0, ProcState.done true 0])]

theorem reachable2_len : ∀ c ∈ reachable2, c.2.length = 2 := by decide

theorem reachable2_step01 :
    ∀ c ∈ reachable2, stepC c 0 ∈ reachable2 ∧ stepC c 1 ∈ reachable2 := by decide

theorem reachable2_closed (c : Config) (hc : c ∈ reachable2) (i : Nat) :
    stepC c i ∈ reachable2 := by
  match i with
  | 0 => exact (reachable2_step01 c hc).1
  | 1 => exact (reachable2_step01 c hc).2
  | (n + 2) =>
    have hlen : c.2.length = 2 := reachable2_len c hc
    have hnone : c.2.get? (n + 2) = none := by
      rw [List.get?_eq_none]
      omega
    simp only [stepC, hnone]
    exact hc

theorem run_mem2 (sched : List Nat) (c : Config) (hc : c ∈ reachable2) :
    run c sched ∈ reachable2 := by
  induction sched generalizing c with
  | nil => exact hc
  | cons i rest ih => exact ih (stepC c i) (reachable2_closed c hc i)

theorem reachable2_final :
    ∀ c ∈ reachable2, allDone c.2 = true →
      c.2 = [ProcState.done true 0, ProcState.done false 0] ∨
      c.2 = [ProcState.done false 0, ProcState.done true 0] := by decide

/-- C1: with the user's balance at 2 and three interleaved `deductCredit`
calls that all read before any writes, every call's conditional write
passes the `credits >= 1` guard and stores its stale `read - 1 = 1`, so
all three calls return success while the balance only drops from 2 to 1:
three successful deductions from a balance of 2, contradicting the bound
of at most N successes from balance N. -/
theorem deduct_three_successes_from_balance_two :
    run (2, [ProcState.start, ProcState.start, ProcState.start]) [0, 1, 2, 0, 1, 2]
      = (1, [ProcState.done true 1, ProcState.done true 1, ProcState.done true 1]) := by
  decide

/-- C2: from balance exactly 1 with two concurrent `deductCredit` calls,
every interleaving in which both calls have returned ends with exactly
one call answering success with remaining 0 and the other answering
failure with remaining 0. -/
theorem deduct_race_exactly_one_winner (sched : List Nat)
    (h : allDone (run (1, [ProcState.start, ProcState.start]) sched).2 = true) :
    (run (1, [ProcState.start, ProcState.start]) sched).2
      = [ProcState.done true 0, ProcState.done false 0] ∨
    (run (1, [ProcState.start, ProcState.start]) sched).2
      = [ProcState.done false 0, ProcState.done true 0] := by
  have hmem := run_mem2 sched (1, [ProcState.start, ProcState.start]) (by decide)
  exact reachable2_final _ hmem h

theorem deduct_race_exactly_one_winner_witness :
    allDone (run (1, [ProcState.start, ProcState.start]) [0, 0, 1]).2 = true ∧
    ((run (1, [ProcState.start, ProcState.start]) [0, 0, 1]).2
      = [ProcState.done true 0, ProcState.done false 0] ∨
     (run (1, [ProcState.start, ProcState.start]) [0, 0, 1]).2
      = [ProcState.done false 0, ProcState.done true 0]) :=
  ⟨by decide, deduct_race_exactly_one_winner [0, 0, 1] (by decide)⟩

/-- C3: the store write of `deductCredit` is `credits := r - 1 where
credits >= 1` for the earlier read `r`, which differs from the atomic
conditional decrement `credits := credits - 1 where credits >= 1`: at
current balance 1 after an earlier read of 2 (the situation of the race
trace above) the code stores 1 where the conditional decrement stores 0. -/
theorem condWrite_differs_from_conditional_decrement :
    condWrite 1 2 = some 1 ∧ specCondDecrement 1 = some 0 ∧
    condWrite 1 2 ≠ specCondDecrement 1 := by
  decide

/-! ## User creation -/

theorem find?_append_of_none {α : Type} (l1 l2 : List α) (p : α → Bool)
    (h : l1.find? p = none) : (l1 ++ l2).find? p = l2.find? p := by
  induction l1 with
  | nil => rfl
  | cons a t ih =>
    rw [List.find?_cons] at h
    rw [List.cons_append, List.find?_cons]
    cases hpa : p a with
    | false =>
      rw [hpa] at h
      exact ih h
    | true => rw [hpa] at h; exact absurd h (by simp)

theorem filter_eq_nil_of_forall {α : Type} (l : List α) (p : α → Bool)
    (h : ∀ a ∈ l, p a = false) : l.filter p = [] := by
  induction l with
  | nil => rfl
  | cons a t ih =>
    rw [List.filter_cons, h a (List.mem_cons_self a t)]
    exact ih (fun b hb => h b (List.mem_cons_of_mem a hb))

/-- C6: when the lookup misses and a concurrent request then commits a
user with the same phone number before our insert, the insert violates
the unique constraint and `getOrCreateUser` throws `Failed to create
user` instead of re-fetching the existing row. -/
theorem getOrCreateUser_duplicate_insert_throws :
    getOrCreateUserRaced "+911234500000"
      { users := [], txns := [], payments := [], nextId := 0 }
      (fun s => { s with
        users := s.users ++ [{ id := 7, phone := "+911234500000", credits := 3 }],
        nextId := 8 })
      = Except.error "Failed to create user" := by
  rfl

/-- C7: on a phone number with no existing user and a fresh id,
`getOrCreateUser` returns a user with 3 credits whose transactions are
exactly the one starter record `action=credit, credits=3, source=system`,
and a second call returns the same user and leaves the store unchanged. -/
theorem getOrCreateUser_new_user_bonus (s : Store) (phone : String)
    (hfind : s.users.find? (fun u => u.phone == phone) = none)
    (hfresh : ∀ t ∈ s.txns, t.user_id ≠ s.nextId) :
    (getOrCreateUser phone s).1.credits = 3 ∧
    (getOrCreateUser phone s).2.txns.filter
        (fun t => t.user_id == (getOrCreateUser phone s).1.id)
      = [{ user_id := (getOrCreateUser phone s).1.id, action := "credit", credits := 3,
           source := "system", reference_id := none }] ∧
    (getOrCreateUser phone (getOrCreateUser phone s).2).1 = (getOrCreateUser phone s).1 ∧
    (getOrCreateUser phone (getOrCreateUser phone s).2).2 = (getOrCreateUser phone s).2 := by
  have hu : getOrCreateUser phone s =
      ({ id := s.nextId, phone := phone, credits := 3 },
       { users := s.users ++ [{ id := s.nextId, phone := phone, credits := 3 }],
         txns := s.txns ++ [{ user_id := s.nextId, action := "credit", credits := 3,
                              source := "system", reference_id := none }],
         payments := s.payments, nextId := s.nextId + 1 }) := by
    unfold getOrCreateUser
    rw [hfind]
  have hfind2 : (s.users ++ [({ id := s.nextId, phone := phone, credits := 3 } : User)]).find?
      (fun u => u.phone == phone)
      = some ({ id := s.nextId, phone := phone, credits := 3 } : User) := by
    rw [find?_append_of_none _ _ _ hfind]
    simp [List.find?]
  refine ⟨by rw [hu], ?_, ?_, ?_⟩
  · rw [hu]
    simp only
    rw [List.filter_append]
    rw [filter_eq_nil_of_forall _ _ (fun t ht => by
      simp only [beq_eq_false_iff_ne, ne_eq]
      exact hfresh t ht)]
    simp [List.filter]
  · rw [hu]
    unfold getOrCreateUser
    simp only
    rw [hfind2]
  · rw [hu]
    unfold getOrCreateUser
    simp only
    rw [hfind2]

theorem getOrCreateUser_new_user_bonus_witness :
    (getOrCreateUser "+919999999999"
        { users := [], txns := [], payments := [], nextId := 0 }).1.credits = 3 ∧
    (getOrCreateUser "+919999999999"
        { users := [], txns := [], payments := [], nextId := 0 }).2.txns.filter
        (fun t => t.user_id == (getOrCreateUser "+919999999999"
          { users := [], txns := [], payments := [], nextId := 0 }).1.id)
      = [{ user_id := (getOrCreateUser "+919999999999"
             { users := [], txns := [], payments := [], nextId := 0 }).1.id,
           action := "credit", credits := 3, source := "system", reference_id := none }] ∧
    (getOrCreateUser "+919999999999" (getOrCreateUser "+919999999999"
        { users := [], txns := [], payments := [], nextId := 0 }).2).1
      = (getOrCreateUser "+919999999999"
        { users := [], txns := [], payments := [], nextId := 0 }).1 ∧
    (getOrCreateUser "+919999999999" (getOrCreateUser "+919999999999"
        { users := [], txns := [], payments := [], nextId := 0 }).2).2
      = (getOrCreateUser "+919999999999"
        { users := [], txns := [], payments := [], nextId := 0 }).2 :=
  getOrCreateUser_new_user_bonus
    { users := [], txns := [], payments := [], nextId := 0 } "+919999999999"
    (by decide) (by decide)

/-! ## Crediting -/

theorem find?_map_update (l : List User) (ph : String) (user : User) (newc : Int)
    (h : l.find? (fun u => u.phone == ph) = some user) :
    (l.map (fun u => if u.id == user.id then { u with credits := newc } else u)).find?
      (fun u => u.phone == ph) = some { user with credits := newc } := by
  induction l with
  | nil => simp [List.find?] at h
  | cons a t ih =>
    rw [List.find?_cons] at h
    rw [List.map_cons, List.find?_cons]
    cases hpa : (a.phone == ph) with
    | true =>
      rw [hpa] at h
      have ha : a = user := by
        injection h
      subst ha
      simp only [beq_self_eq_true, if_pos]
      have : ({ a with credits := newc } : User).phone == ph := hpa
      rw [this]
    | false =>
      rw [hpa] at h
      have hmph : ((if a.id == user.id then { a with credits := newc } else a) : User).phone
          = a.phone := by
        cases haid : (a.id == user.id) <;> simp [haid]
      rw [hmph, hpa]
      exact ih h

theorem addCredits_existing (ph : String) (amt : Int) (src : String) (ref : Option String)
    (s : Store) (user : User)
    (h : s.users.find? (fun u => u.phone == ph) = some user) :
    (addCredits ph amt src ref s).1.credits = user.credits + amt ∧
    (addCredits ph amt src ref s).2.users.find? (fun u => u.phone == ph)
      = some { user with credits := user.credits + amt } := by
  unfold addCredits getOrCreateUser
  rw [h]
  refine ⟨rfl, ?_⟩
  exact find?_map_update s.users ph user (user.credits + amt) h

/-- C4 counterexample: with one user at balance 0 and a valid
`payment.captured` webhook for a 50-credit package, the first delivery
raises the balance to 50 and redelivering the identical event raises it
again to 100: the same payment credits the user twice, so crediting is
not at-most-once per gateway payment id. -/
theorem webhook_replay_credits_twice :
    userCredits (webhookCtrl (some "whsec") (fun _ _ => "sig") "body" (some "sig")
      (fun _ => Except.ok { eventType := "payment.captured", orderId := "o1", paymentId := "pay1" })
      (fun _ => Except.ok (some { package_id := 1, phone_number := "+917000000000", credits := 50 }))
      false
      { users := [{ id := 1, phone := "+917000000000", credits := 0 }],
        txns := [], payments := [], nextId := 2 }).2 "+917000000000" = some 50 ∧
    userCredits (webhookCtrl (some "whsec") (fun _ _ => "sig") "body" (some "sig")
      (fun _ => Except.ok { eventType := "payment.captured", orderId := "o1", paymentId := "pay1" })
      (fun _ => Except.ok (some { package_id := 1, phone_number := "+917000000000", credits := 50 }))
      false
      (webhookCtrl (some "whsec") (fun _ _ => "sig") "body" (some "sig")
        (fun _ => Except.ok { eventType := "payment.captured", orderId := "o1", paymentId := "pay1" })
        (fun _ => Except.ok (some { package_id := 1, phone_number := "+917000000000", credits := 50 }))
        false
        { users := [{ id := 1, phone := "+917000000000", credits := 0 }],
          txns := [], payments := [], nextId := 2 }).2).2 "+917000000000" = some 100 := by
  constructor <;> rfl

/-- C4 amended: the webhook handler performs no deduplication by gateway
payment id: every valid delivery of the same `payment.captured` event
calls `addCredits` again, so two deliveries add the package credits
twice — the user's balance after the second delivery is the original
balance plus two times the package credits. -/
theorem webhook_replay_credits_each_delivery
    (secret : Option String) (hmac : String → String → String)
    (rawBody sg : String)
    (parse : String → Except Unit WebhookEvent)
    (fetchOrder : String → Except Unit (Option OrderNotes))
    (ev : WebhookEvent) (notes : OrderNotes) (s : Store) (user : User)
    (hsig : verifyWebhookSig secret hmac rawBody (some sg) = true)
    (hparse : parse rawBody = Except.ok ev)
    (hev : ev.eventType = "payment.captured")
    (hfetch : fetchOrder ev.orderId = Except.ok (some notes))
    (huser : s.users.find? (fun u => u.phone == notes.phone_number) = some user) :
    (webhookCtrl secret hmac rawBody (some sg) parse fetchOrder false s).1 = 200 ∧
    userCredits (webhookCtrl secret hmac rawBody (some sg) parse fetchOrder false
        (webhookCtrl secret hmac rawBody (some sg) parse fetchOrder false s).2).2
        notes.phone_number
      = some (user.credits + notes.credits + notes.credits) := by
  have hred : ∀ s0 : Store,
      webhookCtrl secret hmac rawBody (some sg) parse fetchOrder false s0
        = (200, (addCredits notes.phone_number notes.credits "webhook_payment"
            (some ev.paymentId) s0).2) := by
    intro s0
    simp only [webhookCtrl, webhookProcess]
    rw [hsig, hparse]
    simp [hev, hfetch]
  have h1 := addCredits_existing notes.phone_number notes.credits "webhook_payment"
    (some ev.paymentId) s user huser
  have h2 := addCredits_existing notes.phone_number notes.credits "webhook_payment"
    (some ev.paymentId)
    (addCredits notes.phone_number notes.credits "webhook_payment" (some ev.paymentId) s).2
    { user with credits := user.credits + notes.credits } h1.2
  refine ⟨by rw [hred s], ?_⟩
  rw [hred s, hred]
  simp only [userCredits]
  rw [h2.2]
  rfl

theorem webhook_replay_credits_each_delivery_witness :
    (webhookCtrl (some "whsec") (fun _ _ => "sig") "body" (some "sig")
      (fun _ => Except.ok { eventType := "payment.captured", orderId := "o1", paymentId := "pay1" })
      (fun _ => Except.ok (some { package_id := 1, phone_number := "+917000000001", credits := 50 }))
      false
      { users := [{ id := 1, phone := "+917000000001", credits := 4 }],
        txns := [], payments := [], nextId := 2 }).1 = 200 ∧
    userCredits (webhookCtrl (some "whsec") (fun _ _ => "sig") "body" (some "sig")
      (fun _ => Except.ok { eventType := "payment.captured", orderId := "o1", paymentId := "pay1" })
      (fun _ => Except.ok (some { package_id := 1, phone_number := "+917000000001", credits := 50 }))
      false
      (webhookCtrl (some "whsec") (fun _ _ => "sig") "body" (some "sig")
        (fun _ => Except.ok { eventType := "payment.captured", orderId := "o1", paymentId := "pay1" })
        (fun _ => Except.ok (some { package_id := 1, phone_number := "+917000000001", credits := 50 }))
        false
        { users := [{ id := 1, phone := "+917000000001", credits := 4 }],
          txns := [], payments := [], nextId := 2 }).2).2 "+917000000001"
      = some (4 + 50 + 50) :=
  webhook_replay_credits_each_delivery (some "whsec") (fun _ _ => "sig") "body" "sig"
    (fun _ => Except.ok { eventType := "payment.captured", orderId := "o1", paymentId := "pay1" })
    (fun _ => Except.ok (some { package_id := 1, phone_number := "+917000000001", credits := 50 }))
    { eventType := "payment.captured", orderId := "o1", paymentId := "pay1" }
    { package_id := 1, phone_number := "+917000000001", credits := 50 }
    { users := [{ id := 1, phone := "+917000000001", credits := 4 }],
      txns := [], payments := [], nextId := 2 }
    { id := 1, phone := "+917000000001", credits := 4 }
    (by decide) rfl rfl rfl (by decide)

/-! ## Signature verification and webhook status -/

/-- C5: whenever the supplied signature differs from
`HMAC-SHA256(secret, orderId | paymentId)` — absent, wrong length, or
equal length but different content — the signature check returns false
without crashing, and the controller answers `invalidSignature` (or
`missingFields` for an absent signature) with the store untouched, so
the user is never credited. -/
theorem verifyPayment_rejects_bad_signature
    (sec : String) (hmac : String → String → String)
    (oid pid : String) (sig : Option String)
    (packages : List Package) (ph : String) (pkgId : Nat)
    (pfail : Bool) (s : Store)
    (h : sig ≠ some (hmac sec (oid ++ "|" ++ pid))) :
    verifyPaymentSig (some sec) hmac oid pid sig = false ∧
    verifyPaymentCtrl (some sec) hmac packages (some oid) (some pid) sig (some ph)
        (some pkgId) pfail s
      = ((if sig.isSome then VerifyResult.invalidSignature else VerifyResult.missingFields), s) := by
  have hsigf : verifyPaymentSig (some sec) hmac oid pid sig = false := by
    cases sig with
    | none => rfl
    | some sg =>
      have hne : hmac sec (oid ++ "|" ++ pid) ≠ sg := by
        intro he
        exact h (by rw [he])
      simp only [verifyPaymentSig]
      by_cases hl : (hmac sec (oid ++ "|" ++ pid)).length ≠ sg.length
      · rw [if_pos hl]
      · rw [if_neg hl]
        exact beq_eq_false_iff_ne.mpr hne
  refine ⟨hsigf, ?_⟩
  cases sig with
  | none => rfl
  | some sg =>
    simp only [verifyPaymentCtrl]
    rw [hsigf]
    simp

theorem verifyPayment_rejects_bad_signature_witness :
    (some "bad" : Option String) ≠ some ((fun _ _ => "good") "sec" ("o" ++ "|" ++ "p")) ∧
    (verifyPaymentSig (some "sec") (fun _ _ => "good") "o" "p" (some "bad") = false ∧
     verifyPaymentCtrl (some "sec") (fun _ _ => "good") [] (some "o") (some "p") (some "bad")
        (some "+911111111111") (some 1) false
        { users := [], txns := [], payments := [], nextId := 0 }
      = (VerifyResult.invalidSignature,
         { users := [], txns := [], payments := [], nextId := 0 })) :=
  ⟨by decide,
   verifyPayment_rejects_bad_signature "sec" (fun _ _ => "good") "o" "p" (some "bad")
     [] "+911111111111" 1 false
     { users := [], txns := [], payments := [], nextId := 0 } (by decide)⟩

theorem webhookProcess_status (rawBody : String)
    (parse : String → Except Unit WebhookEvent)
    (fetchOrder : String → Except Unit (Option OrderNotes))
    (creditFails : Bool) (s : Store) :
    (webhookProcess rawBody parse fetchOrder creditFails s).1 = 200 := by
  simp only [webhookProcess]
  cases parse rawBody with
  | error e => rfl
  | ok ev =>
    simp only
    by_cases he : (ev.eventType == "payment.captured") = true
    · rw [if_pos he]
      cases fetchOrder ev.orderId with
      | error e => rfl
      | ok o =>
        cases o with
        | none => rfl
        | some notes => cases creditFails <;> rfl
    · rw [if_neg he]

/-- C8: the webhook handler answers something other than 200 exactly when
the signature header is missing or the signature check fails; once the
signature is accepted, every processing outcome — parse failure, order
fetch failure or absent order, crediting failure, or success — is
answered 200. -/
theorem webhook_non200_iff_signature_failure
    (secret : Option String) (hmac : String → String → String)
    (rawBody : String) (sig : Option String)
    (parse : String → Except Unit WebhookEvent)
    (fetchOrder : String → Except Unit (Option OrderNotes))
    (creditFails : Bool) (s : Store) :
    (webhookCtrl secret hmac rawBody sig parse fetchOrder creditFails s).1 ≠ 200 ↔
      (sig = none ∨ verifyWebhookSig secret hmac rawBody sig = false) := by
  cases sig with
  | none => simp [webhookCtrl]
  | some sg =>
    simp only [webhookCtrl]
    by_cases hv : verifyWebhookSig secret hmac rawBody (some sg) = false
    · rw [if_pos hv]
      simp [hv]
    · rw [if_neg hv]
      simp [hv, webhookProcess_status rawBody parse fetchOrder creditFails s]

/-! ## Order creation and the round trip -/

/-- C9: the `createOrder` controller computes the gateway amount as
`Math.round(package.price * 100)` (rounding, never truncation) for every
found package; for the package with price 100 and 50 credits the amount
is 10000, and a subsequent `verifyPayment` with the correctly computed
signature for that order and payment succeeds with 50 credits added and
a remaining balance of the previous balance plus 50. -/
theorem createOrder_round_and_roundtrip
    (packages : List Package) (pid : Nat) (ph : String) (pkg : Package)
    (hpkg : packages.find? (fun p => p.id == pid) = some pkg)
    (prev : Int) (sec : String) (hmac : String → String → String)
    (oid pyid : String) (uid : Nat) :
    createOrderCtrl packages (some pid) (some ph)
      = OrderResult.ok (jsRound (pkg.price * 100)) "INR" pkg ∧
    jsRound ((100 : Rat) * 100) = 10000 ∧
    (verifyPaymentCtrl (some sec) hmac [{ id := 1, name := "P", price := 100, credits := 50 }]
        (some oid) (some pyid) (some (hmac sec (oid ++ "|" ++ pyid))) (some ph) (some 1) false
        { users := [{ id := uid, phone := ph, credits := prev }],
          txns := [], payments := [], nextId := uid + 1 }).1
      = VerifyResult.success 50 (prev + 50) := by
  refine ⟨?_, ?_, ?_⟩
  · simp only [createOrderCtrl]
    rw [hpkg]
  · norm_num [jsRound]
  · have hvalid : verifyPaymentSig (some sec) hmac oid pyid
        (some (hmac sec (oid ++ "|" ++ pyid))) = true := by
      simp [verifyPaymentSig]
    simp only [verifyPaymentCtrl]
    rw [hvalid]
    simp [List.find?, addCredits, getOrCreateUser]

theorem createOrder_round_and_roundtrip_witness :
    ([{ id := 1, name := "P", price := 100, credits := 50 }] : List Package).find?
        (fun p => p.id == 1) = some { id := 1, name := "P", price := 100, credits := 50 } ∧
    (createOrderCtrl [{ id := 1, name := "P", price := 100, credits := 50 }]
        (some 1) (some "+911234567890")
      = OrderResult.ok (jsRound ((100 : Rat) * 100)) "INR"
          { id := 1, name := "P", price := 100, credits := 50 } ∧
     jsRound ((100 : Rat) * 100) = 10000 ∧
     (verifyPaymentCtrl (some "sec") (fun a b => a ++ b)
        [{ id := 1, name := "P", price := 100, credits := 50 }]
        (some "o") (some "p") (some ((fun a b => a ++ b) "sec" ("o" ++ "|" ++ "p")))
        (some "+911234567890") (some 1) false
        { users := [{ id := 0, phone := "+911234567890", credits := 7 }],
          txns := [], payments := [], nextId := 1 }).1
      = VerifyResult.success 50 (7 + 50)) :=
  ⟨by decide,
   createOrder_round_and_roundtrip
     [{ id := 1, name := "P", price := 100, credits := 50 }] 1 "+911234567890"
     { id := 1, name := "P", price := 100, credits := 50 } (by decide)
     7 "sec" (fun a b => a ++ b) "o" "p" 0⟩

/-! ## Unconfigured secrets -/

/-- C10: with no gateway key secret configured, the payment signature
check returns false on every input and the verify controller never
succeeds and never writes the store — it fails closed — while the bot
access boundary with no configured secret skips its check and lets every
request through. -/
theorem unconfigured_secrets_contrast
    (hmac : String → String → String) (oid pid : String) (sig : Option String)
    (packages : List Package) (orderId paymentId sg phone : Option String)
    (pkgId : Option Nat) (pfail : Bool) (s : Store) (header : Option String) :
    verifyPaymentSig none hmac oid pid sig = false ∧
    (verifyPaymentCtrl none hmac packages orderId paymentId sg phone pkgId pfail s).2 = s ∧
    (∀ c r, (verifyPaymentCtrl none hmac packages orderId paymentId sg phone pkgId pfail s).1
      ≠ VerifyResult.success c r) ∧
    authenticateBot none header = BotAuthResult.next := by
  refine ⟨rfl, ?_, ?_, rfl⟩
  · cases orderId <;> cases paymentId <;> cases sg <;> cases phone <;> cases pkgId <;>
      simp [verifyPaymentCtrl, verifyPaymentSig]
  · intro c r
    cases orderId <;> cases paymentId <;> cases sg <;> cases phone <;> cases pkgId <;>
      simp [verifyPaymentCtrl, verifyPaymentSig]

end CreditLedger
